import Mathlib

/-!
Verification of the submodel-composition and model-building contract of the
PyBaMM tutorial material.  The repository content consists of usage notebooks;
the engine they exercise (submodel registry, model builder, simulation driver)
is described by the specification but its implementation is not part of the
supplied sources, so the definitions below are modelled from the spec and from
the behaviour the notebooks display.
-/

namespace PyBaMM

abbrev VarName := String
abbrev SubName := String
abbrev Eqn := String

/-- Modelled from the spec: a submodel represents one piece of physics for one
domain.  It declares the variable names it produces, the variable names it
needs from other submodels (coupling dependencies), and its local contribution
to the equation system (rhs equations, algebraic equations, boundary
conditions, initial conditions). -/
structure Submodel where
  produces : List VarName
  needs : List VarName
  rhs : List (VarName × Eqn)
  algebraic : List (VarName × Eqn)
  boundary_conditions : List (VarName × Eqn)
  initial_conditions : List (VarName × Eqn)
deriving DecidableEq, Inhabited

/-- Modelled from the spec: the submodel registry is an ordered-keyed mapping
from a physical-domain name to a submodel instance. -/
abbrev Registry := List (SubName × Submodel)

/-- Modelled from the spec: the assembled equation system owned by a model
after build — rhs equations, algebraic equations, boundary conditions,
initial conditions, and the variable dictionary. -/
structure EqnSystem where
  rhs : List (VarName × Eqn)
  algebraic : List (VarName × Eqn)
  boundary_conditions : List (VarName × Eqn)
  initial_conditions : List (VarName × Eqn)
  vars : List VarName
deriving DecidableEq, Inhabited

/-- The empty equation system: what a model owns before build is invoked. -/
def EqnSystem.empty : EqnSystem :=
  { rhs := [], algebraic := [], boundary_conditions := [],
    initial_conditions := [], vars := [] }

/-- Modelled from the spec: a model owns a submodel registry and, after build,
the assembled equation system; `built` is the state flag of the two-phase
declare-then-build lifecycle. -/
structure Model where
  submodels : Registry
  built : Bool
  eqs : EqnSystem
deriving DecidableEq, Inhabited

/-- A freshly constructed model: registry in place, equation system empty,
not yet built. -/
def Model.new (r : Registry) : Model :=
  { submodels := r, built := false, eqs := EqnSystem.empty }

/-- Modelled from the spec: build-time errors.  Configuration errors carry the
offending submodel name and the missing or duplicated variable (or the
submodels stuck in a cycle); `alreadyBuilt` is the state error raised by a
rebuild attempt without an explicit reset. -/
inductive BuildError where
  | unresolvedVar (submodel : SubName) (var : VarName)
  | duplicateVar (submodel : SubName) (var : VarName)
  | cyclicDependency (submodels : List SubName)
  | alreadyBuilt
deriving DecidableEq, Inhabited

/-- A configuration error, as opposed to the `alreadyBuilt` state error. -/
def BuildError.isConfig : BuildError → Bool
  | .alreadyBuilt => false
  | _ => true

/-- Names of the submodels of the registry that produce variable `v`. -/
def producers (r : Registry) (v : VarName) : List SubName :=
  (r.filter (fun p => p.2.produces.contains v)).map Prod.fst

/-- First required variable of the list (required by submodel `name`) that is
not produced by exactly one submodel of the registry, reported as an error. -/
def firstBadVar (r : Registry) (name : SubName) : List VarName → Option BuildError
  | [] => none
  | v :: vs =>
    if (producers r v).length = 0 then some (.unresolvedVar name v)
    else if (producers r v).length = 1 then firstBadVar r name vs
    else some (.duplicateVar name v)

/-- Scan the submodels of `l`, checking each required variable against the
full registry `r`. -/
def checkVarsAux (r : Registry) : Registry → Option BuildError
  | [] => none
  | (name, s) :: rest =>
    match firstBadVar r name s.needs with
    | some e => some e
    | none => checkVarsAux r rest

/-- Step (1) of the build algorithm: verify that every variable required by
some submodel is produced by exactly one submodel in the registry. -/
def checkVars (r : Registry) : Option BuildError :=
  checkVarsAux r r

/-- A submodel is ready to be evaluated when every variable it needs has
already been produced. -/
def readySub (done : List VarName) (s : Submodel) : Bool :=
  s.needs.all (fun v => done.contains v)

/-- Modelled from the spec: step (2) of the build algorithm, the topological
evaluation check.  Submodels whose needs are already met are eliminated round
by round; if at some round no pending submodel is ready, the remaining
submodels form a cyclic (or unmet) dependency and their names are returned as
the error payload. -/
def kahnElim : Nat → Registry → List VarName → Except (List SubName) Unit
  | _, [], _ => Except.ok ()
  | 0, p :: ps, _ => Except.error ((p :: ps).map Prod.fst)
  | fuel + 1, p :: ps, done =>
    let ready := (p :: ps).filter (fun q => readySub done q.2)
    let rest := (p :: ps).filter (fun q => !readySub done q.2)
    if ready.isEmpty then Except.error (rest.map Prod.fst)
    else kahnElim fuel rest (done ++ (ready.map (fun q => q.2.produces)).flatten)

/-- Step (3) of the build algorithm: accumulate each submodel's equations,
boundary and initial conditions into the model's system; the variable
dictionary is the union (concatenation) of the variables produced across all
submodels. -/
def assemble (r : Registry) : EqnSystem :=
  { rhs := (r.map (fun p => p.2.rhs)).flatten
    algebraic := (r.map (fun p => p.2.algebraic)).flatten
    boundary_conditions := (r.map (fun p => p.2.boundary_conditions)).flatten
    initial_conditions := (r.map (fun p => p.2.initial_conditions)).flatten
    vars := (r.map (fun p => p.2.produces)).flatten }

/-- The model produced by a successful build of registry `r`. -/
def builtResult (r : Registry) : Model :=
  { submodels := r, built := true, eqs := assemble r }

/-- Modelled from the spec: `build_model`.  Rebuilding an already-built model
fails fast with a state error; otherwise the variable-resolution check runs,
then the cyclic-dependency check, and on success the equations of all
submodels are accumulated and the model is marked built. -/
def buildModel (m : Model) : Except BuildError Model :=
  if m.built then Except.error BuildError.alreadyBuilt
  else
    match checkVars m.submodels with
    | some e => Except.error e
    | none =>
      match kahnElim m.submodels.length m.submodels [] with
      | Except.error names => Except.error (BuildError.cyclicDependency names)
      | Except.ok _ => Except.ok (builtResult m.submodels)

/-- Whether an `Except` computation succeeded. -/
def exceptOk : Except ε α → Bool
  | Except.ok _ => true
  | Except.error _ => false

/-- Some required variable of the registry has no producing submodel. -/
def hasUnresolved (r : Registry) : Bool :=
  r.any (fun p => p.2.needs.any (fun v => (producers r v).length = 0))

/-- Some required variable of the registry is produced by more than one
submodel. -/
def hasDuplicate (r : Registry) : Bool :=
  r.any (fun p => p.2.needs.any (fun v => 2 ≤ (producers r v).length))

/-- The build-time error a bad registry elicits: the variable-resolution
error when there is one, otherwise the cyclic-dependency error carrying the
names of the stuck submodels. -/
def buildFailure (r : Registry) : BuildError :=
  match checkVars r with
  | some e => e
  | none =>
    match kahnElim r.length r [] with
    | Except.error names => BuildError.cyclicDependency names
    | Except.ok _ => BuildError.alreadyBuilt

/-- The error names the offending submodel and the missing or duplicated
variable (for a cycle: a nonempty set of registry submodel names). -/
def offenderReported (r : Registry) : BuildError → Bool
  | .unresolvedVar n v =>
    r.any (fun p => p.1 == n && p.2.needs.contains v) && (producers r v).isEmpty
  | .duplicateVar n v =>
    r.any (fun p => p.1 == n && p.2.needs.contains v) && decide (2 ≤ (producers r v).length)
  | .cyclicDependency ns =>
    !ns.isEmpty && ns.all (fun n => (r.map Prod.fst).contains n)
  | .alreadyBuilt => false

/-- Modelled from the spec: insertion/replacement of a registry entry by name.
Later insertion under an existing name overwrites the earlier entry in place;
a new name is appended at the end of the ordered mapping. -/
def insertSub : Registry → SubName → Submodel → Registry
  | [], k, s => [(k, s)]
  | (k1, s1) :: rest, k, s =>
    if k1 = k then (k, s) :: rest else (k1, s1) :: insertSub rest k s

/-- The state error raised when a structural mutation is attempted on a model
whose registry an already-completed build has consumed. -/
inductive StateError where
  | invalidState
deriving DecidableEq, Inhabited

/-- Modelled from the spec: replacing a registry entry through a model.
Permitted before build; once the model is built the registry is structurally
frozen and the replacement fails with an `InvalidStateError`. -/
def setSubmodel (m : Model) (k : SubName) (s : Submodel) : Except StateError Model :=
  if m.built then Except.error StateError.invalidState
  else Except.ok { m with submodels := insertSub m.submodels k s }

/-- Modelled from the spec: a parameter value is either a concrete value or an
input placeholder (written `"[input]"` in the notebooks) whose concrete value
is deferred to solve time. -/
inductive ParamValue where
  | concrete (x : Int)
  | inputPlaceholder
deriving DecidableEq, Inhabited

/-- Modelled from the spec: parameter values, a mapping from named physical
parameters to values. -/
abbrev ParameterValues := List (String × ParamValue)

/-- The time-series solution produced by a solve: the time points at which the
solution is sampled and the resolved inputs that were used. -/
structure Solution where
  times : List Int
  inputs_used : List (String × Int)
deriving DecidableEq, Inhabited

/-- Modelled from the spec: errors raised by the simulation driver.  Using a
model's equation system before build is a state error; a placeholder left
without a concrete value at solve time is an input error naming the missing
parameter. -/
inductive SolveError where
  | modelNotBuilt
  | inputMissing (name : String)
deriving DecidableEq, Inhabited

/-- Modelled from the spec: a simulation composes a built model, parameter
values and (optionally) the time axis of an imported drive cycle; it caches
the discretisation at the first solve and owns the resulting solution. -/
structure Simulation where
  model : Model
  parameter_values : ParameterValues
  data_times : Option (List Int)
  disc : Option Nat
  solution : Option Solution
deriving DecidableEq, Inhabited

/-- Resolve one parameter at solve time: a concrete value stands; a
placeholder is looked up among the inputs passed to this call to solve and
its absence is an input error. -/
def resolveParam (inputs : List (String × Int)) (p : String × ParamValue) :
    Except SolveError (String × Int) :=
  match p.2 with
  | ParamValue.concrete x => Except.ok (p.1, x)
  | ParamValue.inputPlaceholder =>
    match inputs.lookup p.1 with
    | some x => Except.ok (p.1, x)
    | none => Except.error (SolveError.inputMissing p.1)

/-- Resolve all parameters, failing on the first unresolved placeholder. -/
def resolveParams (inputs : List (String × Int)) :
    ParameterValues → Except SolveError (List (String × Int))
  | [] => Except.ok []
  | p :: ps =>
    match resolveParam inputs p with
    | Except.error e => Except.error e
    | Except.ok x =>
      match resolveParams inputs ps with
      | Except.error e => Except.error e
      | Except.ok xs => Except.ok (x :: xs)

/-- Every placeholder among the parameter values has a concrete value among
the inputs of this solve call. -/
def placeholdersCovered (pv : ParameterValues) (inputs : List (String × Int)) : Bool :=
  pv.all (fun p =>
    match p.2 with
    | ParamValue.inputPlaceholder => (inputs.lookup p.1).isSome
    | ParamValue.concrete _ => true)

/-- Modelled from the spec: discretisation of the built equation system onto
the mesh, represented by an opaque size token; computed once and cached. -/
def discretize (m : Model) : Nat :=
  m.eqs.rhs.length + m.eqs.algebraic.length

/-- Modelled from the spec: `Simulation.solve`.  Requires a built model;
resolves the parameter values against the solve-time inputs (failing with an
input error on an unresolved placeholder); with no explicit time argument
falls back to the imported drive-cycle time axis; reuses the cached
discretisation when one exists; and replaces only the solution. -/
def solve (sim : Simulation) (t_eval : Option (List Int))
    (inputs : List (String × Int)) : Except SolveError Simulation :=
  if sim.model.built = false then Except.error SolveError.modelNotBuilt
  else
    match resolveParams inputs sim.parameter_values with
    | Except.error e => Except.error e
    | Except.ok resolved =>
      let ts :=
        match t_eval with
        | some given => given
        | none => sim.data_times.getD []
      let d := sim.disc.getD (discretize sim.model)
      Except.ok { sim with disc := some d,
                           solution := some { times := ts, inputs_used := resolved } }

/-- The outcome of one trial step proposed to the adaptive step controller. -/
structure StepAttempt where
  warned : Bool
  rejected : Bool
  stepSize : Int
deriving DecidableEq, Inhabited

/-- Modelled from the spec: the adaptive step controller.  A trial step whose
evaluation time falls outside the supplied data range raises a warning, is
rejected, and a shorter valid step (up to the end of the data) is retried in
its place; an in-range trial step is accepted as proposed. -/
def controlStep (tmax t hTrial : Int) : StepAttempt :=
  if tmax < t + hTrial then
    { warned := true, rejected := true, stepSize := tmax - t }
  else
    { warned := false, rejected := false, stepSize := hTrial }

/-- Modelled from the spec: the time-stepping loop of a solve over the data
range `[.., tmax]`.  Each proposed trial step goes through the controller; an
accepted step that still escaped the data range would be the fatal error, and
on success the loop returns the final time together with the number of
out-of-range warnings that were logged along the way. -/
def runSteps (tmax : Int) : List Int → Int → Except String (Int × Nat)
  | [], t => Except.ok (t, 0)
  | h :: hs, t =>
    let a := controlStep tmax t h
    if tmax < t + a.stepSize then Except.error "fatal: accepted step out of data range"
    else
      match runSteps tmax hs (t + a.stepSize) with
      | Except.error e => Except.error e
      | Except.ok (tf, w) => Except.ok (tf, (if a.warned then 1 else 0) + w)

/-- A submodel that produces the listed variables, needs nothing from other
submodels, and contributes no differential equations of its own. -/
def simpleSub (vs : List VarName) : Submodel :=
  { produces := vs, needs := [], rhs := [], algebraic := [],
    boundary_conditions := [], initial_conditions := [] }

/-- As `simpleSub`, with coupling: the variables of `ns` must be produced by
other submodels of the registry. -/
def coupledSub (vs ns : List VarName) : Submodel :=
  { produces := vs, needs := ns, rhs := [], algebraic := [],
    boundary_conditions := [], initial_conditions := [] }

/-- Modelled from the spec: the submodel registry of the pre-configured
Single Particle Model, under the physics role names the notebook lists.  The
produced/needed variable sets are abstracted: each submodel produces a
variable named after its role, the external-circuit submodel produces the
current and the discharge capacity (with the rhs equation the notebook shows
after build), and the particle, interface and total-interface submodels carry
the visible couplings. -/
def spmSubmodels : Registry :=
  [ ("external circuit",
      { produces := ["Current function [A]", "Discharge capacity [A.h]"],
        needs := [],
        rhs := [("Discharge capacity [A.h]", "current * capacity scaling")],
        algebraic := [], boundary_conditions := [],
        initial_conditions := [("Discharge capacity [A.h]", "0")] }),
    ("porosity", simpleSub ["porosity"]),
    ("Negative interface utilisation", simpleSub ["Negative interface utilisation"]),
    ("Positive interface utilisation", simpleSub ["Positive interface utilisation"]),
    ("negative particle mechanics", simpleSub ["negative particle mechanics"]),
    ("positive particle mechanics", simpleSub ["positive particle mechanics"]),
    ("negative primary active material", simpleSub ["negative primary active material"]),
    ("positive primary active material", simpleSub ["positive primary active material"]),
    ("electrolyte transport efficiency", simpleSub ["electrolyte transport efficiency"]),
    ("electrode transport efficiency", simpleSub ["electrode transport efficiency"]),
    ("transverse convection", simpleSub ["transverse convection"]),
    ("through-cell convection", simpleSub ["through-cell convection"]),
    ("negative primary open circuit potential",
      simpleSub ["negative primary open circuit potential"]),
    ("positive primary open circuit potential",
      simpleSub ["positive primary open circuit potential"]),
    ("negative interface",
      coupledSub ["negative interface"]
        ["Current function [A]", "negative primary open circuit potential"]),
    ("negative interface current", coupledSub ["negative interface current"]
        ["negative interface"]),
    ("positive interface",
      coupledSub ["positive interface"]
        ["Current function [A]", "positive primary open circuit potential"]),
    ("positive interface current", coupledSub ["positive interface current"]
        ["positive interface"]),
    ("negative primary particle",
      { produces := ["Average negative particle concentration"],
        needs := ["Current function [A]"],
        rhs := [("Average negative particle concentration", "neg particle flux")],
        algebraic := [], boundary_conditions := [],
        initial_conditions := [("Average negative particle concentration", "cn0")] }),
    ("positive primary particle",
      { produces := ["X-averaged positive particle concentration"],
        needs := ["Current function [A]"],
        rhs := [("X-averaged positive particle concentration", "pos particle diffusion")],
        algebraic := [],
        boundary_conditions := [("X-averaged positive particle concentration", "surface flux")],
        initial_conditions := [("X-averaged positive particle concentration", "cp0")] }),
    ("negative electrode potential", simpleSub ["negative electrode potential"]),
    ("positive electrode potential", simpleSub ["positive electrode potential"]),
    ("electrolyte diffusion", simpleSub ["electrolyte diffusion"]),
    ("leading-order electrolyte conductivity",
      simpleSub ["leading-order electrolyte conductivity"]),
    ("negative surface potential difference",
      simpleSub ["negative surface potential difference"]),
    ("positive surface potential difference",
      simpleSub ["positive surface potential difference"]),
    ("thermal", simpleSub ["thermal"]),
    ("current collector", simpleSub ["current collector"]),
    ("primary sei", simpleSub ["primary sei"]),
    ("primary sei on cracks", simpleSub ["primary sei on cracks"]),
    ("lithium plating", simpleSub ["lithium plating"]),
    ("total interface",
      coupledSub ["total interface"]
        ["negative interface current", "positive interface current"]) ]

/-- Modelled from the spec: the `pybamm.lithium_ion.SPM` constructor.  With
default arguments the model builds on construction; with `build := false` the
submodel registry is populated but the model is left unbuilt. -/
def SPM (build : Bool) : Model :=
  if build then
    match buildModel (Model.new spmSubmodels) with
    | Except.ok m => m
    | Except.error _ => Model.new spmSubmodels
  else Model.new spmSubmodels

/-- Modelled from the spec: the `pybamm.lithium_ion.BaseModel` constructor,
which selects no default submodels. -/
def BaseModel : Model := Model.new []

/-- A one-submodel registry whose build succeeds, used as a concrete test
input. -/
def regTiny : Registry :=
  [ ("external circuit",
      { produces := ["I"], needs := [],
        rhs := [("Q", "dQ")], algebraic := [],
        boundary_conditions := [], initial_conditions := [("Q", "Q0")] }) ]

/-- A registry with unique variable production but a dependency cycle between
its two submodels. -/
def cyclicReg : Registry :=
  [ ("A", coupledSub ["x"] ["y"]),
    ("B", coupledSub ["y"] ["x"]) ]

/-- A registry in which the required variable `z` has no producing submodel. -/
def regUnresolved : Registry :=
  [ ("A", coupledSub ["x"] ["z"]) ]

/-- Every variable required by some submodel of the registry is produced by
exactly one submodel of the registry. -/
def uniquelyResolved (r : Registry) : Bool :=
  r.all (fun p => p.2.needs.all (fun v => (producers r v).length == 1))

/-- First parameter that is a placeholder with no concrete value among the
inputs of this solve call. -/
def firstMissingInput (pv : ParameterValues) (inputs : List (String × Int)) : Option String :=
  match pv with
  | [] => none
  | p :: ps =>
    match p.2 with
    | ParamValue.inputPlaceholder =>
      if (inputs.lookup p.1).isNone then some p.1 else firstMissingInput ps inputs
    | ParamValue.concrete _ => firstMissingInput ps inputs

/-- Whether a solve outcome is the solve-time input error. -/
def isInputError : Except SolveError Simulation → Bool
  | Except.error (SolveError.inputMissing _) => true
  | _ => false

/-- The sample times of the solution a solve outcome carries, when any. -/
def solveTimes : Except SolveError Simulation → Option (List Int)
  | Except.ok s => s.solution.map Solution.times
  | Except.error _ => none

/-- The simulation a solve outcome carries (the unchanged input simulation on
failure). -/
def solveResult (sim : Simulation) (t_eval : Option (List Int))
    (inputs : List (String × Int)) : Simulation :=
  match solve sim t_eval inputs with
  | Except.ok s => s
  | Except.error _ => sim

/-- A drive-cycle simulation over the tiny registry: built model, the current
function declared as an input placeholder, imported data time axis. -/
def simDrive : Simulation :=
  { model := builtResult regTiny,
    parameter_values := [("Current function [A]", ParamValue.inputPlaceholder)],
    data_times := some [0, 300, 600],
    disc := none,
    solution := none }

section Lemmas

/-- An error found by `firstBadVar` is about one of the scanned variables and
truly diagnoses its production count. -/
theorem firstBadVar_some (r : Registry) (n : SubName) (vs : List VarName)
    (e : BuildError) (h : firstBadVar r n vs = some e) :
    (∃ v ∈ vs, e = BuildError.unresolvedVar n v ∧ (producers r v).length = 0) ∨
    (∃ v ∈ vs, e = BuildError.duplicateVar n v ∧ 2 ≤ (producers r v).length) := by
  induction vs with
  | nil => simp [firstBadVar] at h
  | cons v vs ih =>
    simp only [firstBadVar] at h
    split_ifs at h with h0 h1
    · cases h
      exact Or.inl ⟨v, by simp, rfl, h0⟩
    · rcases ih h with ⟨v2, hv2, he, hl⟩ | ⟨v2, hv2, he, hl⟩
      · exact Or.inl ⟨v2, by simp [hv2], he, hl⟩
      · exact Or.inr ⟨v2, by simp [hv2], he, hl⟩
    · cases h
      exact Or.inr ⟨v, by simp, rfl, by omega⟩

/-- When `firstBadVar` reports nothing, every scanned variable has exactly
one producer. -/
theorem firstBadVar_none (r : Registry) (n : SubName) (vs : List VarName)
    (h : firstBadVar r n vs = none) :
    ∀ v ∈ vs, (producers r v).length = 1 := by
  induction vs with
  | nil => simp
  | cons v vs ih =>
    simp only [firstBadVar] at h
    split_ifs at h with h0 h1
    · intro v2 hv2
      rcases List.mem_cons.mp hv2 with rfl | hv2
      · exact h1
      · exact ih h v2 hv2

/-- When every scanned variable has exactly one producer, `firstBadVar`
reports nothing. -/
theorem firstBadVar_none_of_resolved (r : Registry) (n : SubName) (vs : List VarName)
    (h : ∀ v ∈ vs, (producers r v).length = 1) :
    firstBadVar r n vs = none := by
  induction vs with
  | nil => simp [firstBadVar]
  | cons v vs ih =>
    have hv := h v (by simp)
    simp only [firstBadVar, hv]
    exact ih (fun v2 hv2 => h v2 (by simp [hv2]))

/-- Soundness of the registry scan: a reported error names a submodel of the
scanned list, a variable it needs, and the true production count. -/
theorem checkVarsAux_some (r : Registry) (l : Registry) (e : BuildError)
    (h : checkVarsAux r l = some e) :
    ∃ n s, (n, s) ∈ l ∧
      ((∃ v ∈ s.needs, e = BuildError.unresolvedVar n v ∧ (producers r v).length = 0) ∨
       (∃ v ∈ s.needs, e = BuildError.duplicateVar n v ∧ 2 ≤ (producers r v).length)) := by
  induction l with
  | nil => simp [checkVarsAux] at h
  | cons p rest ih =>
    obtain ⟨n, s⟩ := p
    simp only [checkVarsAux] at h
    cases hfb : firstBadVar r n s.needs with
    | some e2 =>
      rw [hfb] at h
      cases h
      exact ⟨n, s, by simp, firstBadVar_some r n s.needs e hfb⟩
    | none =>
      rw [hfb] at h
      obtain ⟨n2, s2, hmem, hrest⟩ := ih h
      exact ⟨n2, s2, by simp [hmem], hrest⟩

/-- Completeness of the registry scan: if nothing is reported, every variable
required by a scanned submodel has exactly one producer. -/
theorem checkVarsAux_none (r : Registry) (l : Registry)
    (h : checkVarsAux r l = none) :
    ∀ p ∈ l, ∀ v ∈ p.2.needs, (producers r v).length = 1 := by
  induction l with
  | nil => simp
  | cons p rest ih =>
    obtain ⟨n, s⟩ := p
    simp only [checkVarsAux] at h
    cases hfb : firstBadVar r n s.needs with
    | some e2 => rw [hfb] at h; cases h
    | none =>
      rw [hfb] at h
      intro q hq v hv
      rcases List.mem_cons.mp hq with rfl | hq
      · exact firstBadVar_none r n s.needs hfb v hv
      · exact ih h q hq v hv

/-- The registry scan reports nothing when every variable required by a
scanned submodel has exactly one producer. -/
theorem checkVarsAux_none_of_resolved (r : Registry) (l : Registry)
    (h : ∀ p ∈ l, ∀ v ∈ p.2.needs, (producers r v).length = 1) :
    checkVarsAux r l = none := by
  induction l with
  | nil => rfl
  | cons p rest ih =>
    obtain ⟨n, s⟩ := p
    simp only [checkVarsAux]
    rw [firstBadVar_none_of_resolved r n s.needs (fun v hv => h (n, s) (by simp) v hv)]
    exact ih (fun q hq => h q (by simp [hq]))

/-- The registry scan reports nothing on a uniquely resolved registry. -/
theorem checkVars_none_of_uniquelyResolved (r : Registry)
    (h : uniquelyResolved r = true) : checkVars r = none := by
  rw [uniquelyResolved, List.all_eq_true] at h
  refine checkVarsAux_none_of_resolved r r (fun p hp v hv => ?_)
  have hall := h p hp
  rw [List.all_eq_true] at hall
  simpa using hall v hv

/-- When the topological elimination gets stuck, its error payload is a
nonempty set of names of still-pending submodels. -/
theorem kahnElim_error (fuel : Nat) : ∀ (pending : Registry) (done : List VarName)
    (ns : List SubName), kahnElim fuel pending done = Except.error ns →
    ns ≠ [] ∧ ∀ n ∈ ns, n ∈ pending.map Prod.fst := by
  induction fuel with
  | zero =>
    intro pending done ns h
    cases pending with
    | nil => simp [kahnElim] at h
    | cons p ps =>
      simp only [kahnElim] at h
      cases h
      refine ⟨by simp, fun n hn => hn⟩
  | succ fuel ih =>
    intro pending done ns h
    cases pending with
    | nil => simp [kahnElim] at h
    | cons p ps =>
      simp only [kahnElim] at h
      by_cases hr : ((p :: ps).filter (fun q => readySub done q.2)).isEmpty
      · rw [if_pos hr] at h
        cases h
        have hall : ∀ q ∈ p :: ps, ¬ (readySub done q.2 = true) := by
          have := List.filter_eq_nil_iff.mp (List.isEmpty_iff.mp hr)
          intro q hq
          simpa using this q hq
        have hrest : (p :: ps).filter (fun q => !readySub done q.2) = p :: ps := by
          apply List.filter_eq_self.mpr
          intro a ha
          simp [hall a ha]
        rw [hrest]
        exact ⟨by simp, fun n hn => hn⟩
      · rw [if_neg hr] at h
        obtain ⟨hne, hmem⟩ := ih _ _ _ h
        refine ⟨hne, fun n hn => ?_⟩
        have := hmem n hn
        rw [List.mem_map] at this ⊢
        obtain ⟨q, hq, rfl⟩ := this
        exact ⟨q, List.mem_of_mem_filter hq, rfl⟩

/-- A variable-resolution error is a configuration error that reports the
offending submodel and variable. -/
theorem offender_of_checkVars (r : Registry) (e : BuildError)
    (h : checkVars r = some e) :
    offenderReported r e = true ∧ e.isConfig = true := by
  obtain ⟨n, s, hmem, hcase⟩ := checkVarsAux_some r r e h
  rcases hcase with ⟨v, hv, rfl, hlen⟩ | ⟨v, hv, rfl, hlen⟩
  · constructor
    · simp only [offenderReported, Bool.and_eq_true]
      constructor
      · rw [List.any_eq_true]
        exact ⟨(n, s), hmem, by simp [hv]⟩
      · have : producers r v = [] := List.length_eq_zero.mp hlen
        simp [this]
    · rfl
  · constructor
    · simp only [offenderReported, Bool.and_eq_true]
      constructor
      · rw [List.any_eq_true]
        exact ⟨(n, s), hmem, by simp [hv]⟩
      · simpa using hlen
    · rfl

/-- Unfolding of a build attempt on a fresh model when the variable check
reports an error. -/
theorem buildModel_checkVars_error (r : Registry) (e : BuildError)
    (h : checkVars r = some e) :
    buildModel (Model.new r) = Except.error e := by
  simp [buildModel, Model.new, h]

/-- Unfolding of a build attempt on a fresh model when the variable check
passes but the topological elimination gets stuck. -/
theorem buildModel_cycle_error (r : Registry) (ns : List SubName)
    (h1 : checkVars r = none) (h2 : kahnElim r.length r [] = Except.error ns) :
    buildModel (Model.new r) = Except.error (BuildError.cyclicDependency ns) := by
  simp [buildModel, Model.new, h1, h2]

/-- Unfolding of a successful build attempt on a fresh model. -/
theorem buildModel_ok (r : Registry)
    (h1 : checkVars r = none) (h2 : kahnElim r.length r [] = Except.ok ()) :
    buildModel (Model.new r) = Except.ok (builtResult r) := by
  simp [buildModel, Model.new, h1, h2]

/-- A successful build marks the model built, keeps its registry, assembles
the accumulated equation system, and certifies the variable resolution. -/
theorem buildModel_ok_inv (m m1 : Model) (h : buildModel m = Except.ok m1) :
    m.built = false ∧ checkVars m.submodels = none ∧ m1 = builtResult m.submodels := by
  by_cases hb : m.built
  · simp [buildModel, hb] at h
  · cases hcv : checkVars m.submodels with
    | some e => simp [buildModel, hb, hcv] at h
    | none =>
      cases hk : kahnElim m.submodels.length m.submodels [] with
      | error ns => simp [buildModel, hb, hcv, hk] at h
      | ok u =>
        simp only [buildModel, hb, hcv, hk, if_false] at h
        cases h
        exact ⟨by simp [hb], rfl, rfl⟩


theorem resolveParams_ok_of_covered (inputs : List (String × Int)) (pv : ParameterValues)
    (h : placeholdersCovered pv inputs = true) :
    ∃ res, resolveParams inputs pv = Except.ok res := by
  induction pv with
  | nil => exact ⟨[], rfl⟩
  | cons p ps ih =>
    rw [placeholdersCovered, List.all_eq_true] at h
    have hp := h p (by simp)
    have hps : placeholdersCovered ps inputs = true := by
      rw [placeholdersCovered, List.all_eq_true]
      exact fun q hq => h q (by simp [hq])
    obtain ⟨res, hres⟩ := ih hps
    cases hpv : p.2 with
    | concrete x =>
      refine ⟨(p.1, x) :: res, ?_⟩
      simp [resolveParams, resolveParam, hpv, hres]
    | inputPlaceholder =>
      rw [hpv] at hp
      simp only at hp
      cases hlk : inputs.lookup p.1 with
      | none => rw [hlk] at hp; simp at hp
      | some x =>
        refine ⟨(p.1, x) :: res, ?_⟩
        simp [resolveParams, resolveParam, hpv, hlk, hres]

theorem resolveParams_error_of_missing (inputs : List (String × Int)) (pv : ParameterValues)
    (n : String) (h : firstMissingInput pv inputs = some n) :
    resolveParams inputs pv = Except.error (SolveError.inputMissing n) := by
  induction pv with
  | nil => simp [firstMissingInput] at h
  | cons p ps ih =>
    cases hpv : p.2 with
    | concrete x =>
      rw [firstMissingInput, hpv] at h
      simp only [resolveParams, resolveParam, hpv]
      rw [ih h]
    | inputPlaceholder =>
      rw [firstMissingInput, hpv] at h
      simp only at h
      cases hlk : inputs.lookup p.1 with
      | none =>
        rw [hlk] at h
        simp at h
        cases h
        simp [resolveParams, resolveParam, hpv, hlk]
      | some x =>
        rw [hlk] at h
        simp at h
        simp only [resolveParams, resolveParam, hpv, hlk]
        rw [ih h]

theorem firstMissingInput_isSome (pv : ParameterValues) (inputs : List (String × Int))
    (n : String) (hp : (n, ParamValue.inputPlaceholder) ∈ pv)
    (hm : inputs.lookup n = none) :
    (firstMissingInput pv inputs).isSome = true := by
  induction pv with
  | nil => simp at hp
  | cons p ps ih =>
    rcases List.mem_cons.mp hp with heq | hp2
    · rw [firstMissingInput, ← heq]
      simp [hm]
    · cases hpv : p.2 with
      | concrete x => rw [firstMissingInput, hpv]; exact ih hp2
      | inputPlaceholder =>
        rw [firstMissingInput, hpv]
        simp only
        cases hlk : (inputs.lookup p.1).isNone with
        | true => simp [hlk]
        | false => simp [hlk]; exact ih hp2

theorem solve_ok_ex (sim : Simulation) (t : Option (List Int)) (inputs : List (String × Int))
    (hb : sim.model.built = true)
    (hc : placeholdersCovered sim.parameter_values inputs = true) :
    ∃ resolved, resolveParams inputs sim.parameter_values = Except.ok resolved ∧
      solve sim t inputs = Except.ok { sim with
        disc := some (sim.disc.getD (discretize sim.model)),
        solution := some { times := (match t with
          | some given => given
          | none => sim.data_times.getD []), inputs_used := resolved } } := by
  obtain ⟨res, hres⟩ := resolveParams_ok_of_covered inputs sim.parameter_values hc
  exact ⟨res, hres, by simp [solve, hb, hres]⟩

theorem solve_ok_inv (sim sim1 : Simulation) (t : Option (List Int))
    (inputs : List (String × Int)) (h : solve sim t inputs = Except.ok sim1) :
    sim.model.built = true ∧ sim1.model = sim.model ∧
    sim1.parameter_values = sim.parameter_values ∧
    sim1.data_times = sim.data_times ∧
    sim1.disc = some (sim.disc.getD (discretize sim.model)) := by
  cases hb : sim.model.built with
  | false => simp [solve, hb] at h
  | true =>
    cases hres : resolveParams inputs sim.parameter_values with
    | error e => simp [solve, hb, hres] at h
    | ok res =>
      simp only [solve, hb, hres, Bool.true_eq_false, if_false] at h
      cases h
      exact ⟨rfl, rfl, rfl, rfl, rfl⟩

theorem runSteps_ok (tmax : Int) (hs : List Int) : ∀ t : Int, t ≤ tmax →
    exceptOk (runSteps tmax hs t) = true := by
  induction hs with
  | nil => intro t ht; rfl
  | cons h hs ih =>
    intro t ht
    simp only [runSteps]
    have hstep : t + (controlStep tmax t h).stepSize ≤ tmax := by
      rw [controlStep]
      split_ifs with hcase
      · show t + (tmax - t) ≤ tmax
        omega
      · show t + h ≤ tmax
        omega
    rw [if_neg (by omega)]
    cases hrec : runSteps tmax hs (t + (controlStep tmax t h).stepSize) with
    | error e =>
      have := ih _ hstep
      rw [hrec] at this
      simp [exceptOk] at this
    | ok p => simp [exceptOk]

theorem insertSub_lookup_self (r : Registry) (k : SubName) (s : Submodel) :
    (insertSub r k s).lookup k = some s := by
  induction r with
  | nil => simp [insertSub, List.lookup]
  | cons p rest ih =>
    obtain ⟨k1, s1⟩ := p
    simp only [insertSub]
    split_ifs with hk
    · simp [List.lookup]
    · have hne : (k == k1) = false := beq_eq_false_iff_ne.mpr (fun hc => hk hc.symm)
      simp [List.lookup, hne, ih]


theorem uniquelyResolved_of_checkVars_none (r : Registry) (h : checkVars r = none) :
    uniquelyResolved r = true := by
  rw [uniquelyResolved, List.all_eq_true]
  intro p hp
  rw [List.all_eq_true]
  intro v hv
  have := checkVarsAux_none r r h p hp v hv
  simp [this]

theorem contains_flatten_eq_any (l : Registry) (v : VarName) :
    ((l.map (fun p => p.2.produces)).flatten.contains v)
      = l.any (fun p => p.2.produces.contains v) := by
  rw [Bool.eq_iff_iff, List.elem_iff, List.any_eq_true]
  rw [List.mem_flatten]
  constructor
  · rintro ⟨xs, hxs, hv⟩
    obtain ⟨q, hq, rfl⟩ := List.mem_map.mp hxs
    exact ⟨q, hq, List.elem_iff.mpr hv⟩
  · rintro ⟨q, hq, hv⟩
    exact ⟨q.2.produces, List.mem_map.mpr ⟨q, hq, rfl⟩, List.elem_iff.mp hv⟩

theorem insertSub_lookup_ne (r : Registry) (k k2 : SubName) (s : Submodel)
    (h : k2 ≠ k) : (insertSub r k s).lookup k2 = r.lookup k2 := by
  induction r with
  | nil =>
    have : (k2 == k) = false := beq_eq_false_iff_ne.mpr h
    simp [insertSub, List.lookup, this]
  | cons p rest ih =>
    obtain ⟨k1, s1⟩ := p
    simp only [insertSub]
    split_ifs with hk
    · subst hk
      have : (k2 == k1) = false := beq_eq_false_iff_ne.mpr h
      simp [List.lookup, this]
    · cases hbeq : (k2 == k1) with
      | true => simp [List.lookup, hbeq]
      | false => simp [List.lookup, hbeq, ih]

theorem insertSub_keys_mem (r : Registry) (k : SubName) (s : Submodel) (x : SubName)
    (h : x ∈ (insertSub r k s).map Prod.fst) : x ∈ r.map Prod.fst ∨ x = k := by
  induction r with
  | nil =>
    simp only [insertSub, List.map_cons, List.map_nil, List.mem_singleton] at h
    exact Or.inr h
  | cons p rest ih =>
    obtain ⟨k1, s1⟩ := p
    simp only [insertSub] at h
    split_ifs at h with hk
    · simp only [List.map_cons, List.mem_cons] at h
      rcases h with rfl | h2
      · exact Or.inr rfl
      · exact Or.inl (by simp only [List.map_cons, List.mem_cons]; exact Or.inr h2)
    · simp only [List.map_cons, List.mem_cons] at h
      rcases h with rfl | h2
      · exact Or.inl (by simp)
      · rcases ih h2 with hx | hx
        · exact Or.inl (by simp only [List.map_cons, List.mem_cons]; exact Or.inr hx)
        · exact Or.inr hx

theorem insertSub_keys_nodup (r : Registry) (k : SubName) (s : Submodel)
    (h : (r.map Prod.fst).Nodup) : ((insertSub r k s).map Prod.fst).Nodup := by
  induction r with
  | nil => simp [insertSub]
  | cons p rest ih =>
    obtain ⟨k1, s1⟩ := p
    simp only [List.map_cons, List.nodup_cons] at h
    simp only [insertSub]
    split_ifs with hk
    · subst hk
      simp only [List.map_cons, List.nodup_cons]
      exact h
    · simp only [List.map_cons, List.nodup_cons]
      refine ⟨fun hmem => ?_, ih h.2⟩
      rcases insertSub_keys_mem rest k s k1 hmem with hx | hx
      · exact h.1 hx
      · exact hk hx

end Lemmas

section Claims

/-- C1: for every model, the equation system (rhs, algebraic, boundary and
initial conditions) is empty before build is invoked, and after a successful
build it is fully populated (the accumulated system of all submodels) and
internally consistent: every required variable resolves to exactly one
producing submodel. -/
theorem equation_system_empty_until_build_then_consistent
    (r : Registry) (m m1 : Model) (hbuild : buildModel m = Except.ok m1) :
    ((Model.new r).eqs = EqnSystem.empty ∧ (Model.new r).built = false) ∧
    (m1.built = true ∧ m1.submodels = m.submodels ∧
     m1.eqs = assemble m.submodels ∧ uniquelyResolved m1.submodels = true) := by
  obtain ⟨hb, hcv, rfl⟩ := buildModel_ok_inv m m1 hbuild
  exact ⟨⟨rfl, rfl⟩, rfl, rfl, rfl, uniquelyResolved_of_checkVars_none _ hcv⟩

/-- Witness for C1 at the tiny registry. -/
theorem equation_system_empty_until_build_then_consistent_witness :
    ((Model.new regTiny).eqs = EqnSystem.empty ∧ (Model.new regTiny).built = false) ∧
    ((builtResult regTiny).built = true ∧
     (builtResult regTiny).submodels = (Model.new regTiny).submodels ∧
     (builtResult regTiny).eqs = assemble (Model.new regTiny).submodels ∧
     uniquelyResolved (builtResult regTiny).submodels = true) :=
  equation_system_empty_until_build_then_consistent regTiny (Model.new regTiny)
    (builtResult regTiny) rfl

/-- C2, counterexample: a registry in which every required variable is
produced by exactly one submodel, yet build fails (the two submodels depend
cyclically on each other), refuting the claim that unique production alone
guarantees a successful build. -/
theorem build_succeeds_unique_production_counterexample :
    uniquelyResolved cyclicReg = true ∧
    exceptOk (buildModel (Model.new cyclicReg)) = false := by
  exact ⟨rfl, rfl⟩

/-- C2, amended: for every registry in which each required variable is
produced by exactly one submodel AND the submodel dependency elimination
succeeds (no cyclic dependency), build succeeds and the equation system it
produces declares exactly the union of the variables produced across all
submodels of the registry. -/
theorem build_succeeds_unique_production_acyclic
    (r : Registry) (v : VarName)
    (h1 : uniquelyResolved r = true)
    (h2 : kahnElim r.length r [] = Except.ok ()) :
    buildModel (Model.new r) = Except.ok (builtResult r) ∧
    (builtResult r).eqs.vars = (r.map (fun p => p.2.produces)).flatten ∧
    (builtResult r).eqs.vars.contains v = r.any (fun p => p.2.produces.contains v) := by
  refine ⟨buildModel_ok r (checkVars_none_of_uniquelyResolved r h1) h2, rfl, ?_⟩
  exact contains_flatten_eq_any r v

/-- Witness for the amended C2 at the tiny registry. -/
theorem build_succeeds_unique_production_acyclic_witness :
    uniquelyResolved regTiny = true ∧
    kahnElim regTiny.length regTiny [] = Except.ok () ∧
    (buildModel (Model.new regTiny) = Except.ok (builtResult regTiny) ∧
     (builtResult regTiny).eqs.vars
       = (regTiny.map (fun p => p.2.produces)).flatten ∧
     (builtResult regTiny).eqs.vars.contains "I"
       = regTiny.any (fun p => p.2.produces.contains "I")) :=
  ⟨rfl, rfl, build_succeeds_unique_production_acyclic regTiny "I" rfl rfl⟩

/-- C3: invoking build again on an already-built model, without an explicit
reset, fails fast with the `alreadyBuilt` state error; no rebuilt model is
produced, so the existing equation system is left unchanged. -/
theorem rebuild_without_reset_fails (m : Model) (h : m.built = true) :
    buildModel m = Except.error BuildError.alreadyBuilt := by
  simp [buildModel, h]

/-- Witness for C3 at the default-built SPM. -/
theorem rebuild_without_reset_fails_witness :
    (SPM true).built = true ∧
    buildModel (SPM true) = Except.error BuildError.alreadyBuilt :=
  ⟨rfl, rebuild_without_reset_fails (SPM true) rfl⟩

/-- C4: a registry with an unresolved required variable, a duplicated
required variable, or a cyclic dependency makes build fail (deterministically,
build being a function of the registry) with a configuration error that
reports the offending submodel name and the missing or duplicated variable
(for a cycle: the names of the stuck submodels). -/
theorem build_fails_on_bad_configuration (r : Registry)
    (hbad : hasUnresolved r = true ∨ hasDuplicate r = true ∨
            exceptOk (kahnElim r.length r []) = false) :
    buildModel (Model.new r) = Except.error (buildFailure r) ∧
    (buildFailure r).isConfig = true ∧
    offenderReported r (buildFailure r) = true := by
  cases hcv : checkVars r with
  | some e =>
    have hbf : buildFailure r = e := by simp [buildFailure, hcv]
    rw [hbf]
    obtain ⟨hrep, hcfg⟩ := offender_of_checkVars r e hcv
    exact ⟨buildModel_checkVars_error r e hcv, hcfg, hrep⟩
  | none =>
    have hres := checkVarsAux_none r r hcv
    have hnu : hasUnresolved r = false := by
      rw [Bool.eq_false_iff]
      intro hc
      rw [hasUnresolved, List.any_eq_true] at hc
      obtain ⟨p, hp, hc2⟩ := hc
      rw [List.any_eq_true] at hc2
      obtain ⟨v, hv, hc3⟩ := hc2
      have := hres p hp v hv
      simp only [decide_eq_true_eq] at hc3
      omega
    have hnd : hasDuplicate r = false := by
      rw [Bool.eq_false_iff]
      intro hc
      rw [hasDuplicate, List.any_eq_true] at hc
      obtain ⟨p, hp, hc2⟩ := hc
      rw [List.any_eq_true] at hc2
      obtain ⟨v, hv, hc3⟩ := hc2
      have := hres p hp v hv
      simp only [decide_eq_true_eq] at hc3
      omega
    cases hk : kahnElim r.length r [] with
    | ok u =>
      exfalso
      rcases hbad with hb | hb | hb
      · rw [hnu] at hb; cases hb
      · rw [hnd] at hb; cases hb
      · rw [hk] at hb; cases hb
    | error ns =>
      have hbf : buildFailure r = BuildError.cyclicDependency ns := by
        simp [buildFailure, hcv, hk]
      rw [hbf]
      obtain ⟨hne, hmem⟩ := kahnElim_error r.length r [] ns hk
      refine ⟨buildModel_cycle_error r ns hcv hk, rfl, ?_⟩
      simp only [offenderReported, Bool.and_eq_true]
      constructor
      · simp [List.isEmpty_iff, hne]
      · rw [List.all_eq_true]
        intro n hn
        exact List.elem_iff.mpr (hmem n hn)

/-- Witness for C4 at the registry with an unresolved required variable. -/
theorem build_fails_on_bad_configuration_witness :
    hasUnresolved regUnresolved = true ∧
    (buildModel (Model.new regUnresolved) = Except.error (buildFailure regUnresolved) ∧
     (buildFailure regUnresolved).isConfig = true ∧
     offenderReported regUnresolved (buildFailure regUnresolved) = true) :=
  ⟨rfl, build_fails_on_bad_configuration regUnresolved (Or.inl rfl)⟩

/-- C5: a parameter declared as an input placeholder does not prevent a
successful build (build never consults parameter values), and a solve that
leaves the placeholder unresolved fails at solve time with the identifiable
input error naming a missing input parameter. -/
theorem unresolved_input_fails_at_solve_time
    (r : Registry) (m : Model) (pv : ParameterValues) (dt : Option (List Int))
    (d0 : Option Nat) (s0 : Option Solution) (t : Option (List Int))
    (inputs : List (String × Int)) (n : String)
    (hb : buildModel (Model.new r) = Except.ok m)
    (hp : (n, ParamValue.inputPlaceholder) ∈ pv)
    (hm : inputs.lookup n = none) :
    isInputError (solve ⟨m, pv, dt, d0, s0⟩ t inputs) = true ∧
    solve ⟨m, pv, dt, d0, s0⟩ t inputs
      = Except.error (SolveError.inputMissing ((firstMissingInput pv inputs).getD n)) := by
  obtain ⟨hbf, hcv, hm1⟩ := buildModel_ok_inv _ _ hb
  have hm2 : m = builtResult r := hm1
  subst hm2
  have hiss := firstMissingInput_isSome pv inputs n hp hm
  obtain ⟨n2, hn2⟩ := Option.isSome_iff_exists.mp hiss
  have hres := resolveParams_error_of_missing inputs pv n2 hn2
  have hsolve : solve ⟨builtResult r, pv, dt, d0, s0⟩ t inputs
      = Except.error (SolveError.inputMissing n2) := by
    simp [solve, builtResult, hres]
  rw [hn2]
  exact ⟨by rw [hsolve]; rfl, by rw [hsolve]; rfl⟩

/-- Witness for C5 at the drive-cycle simulation with no inputs passed. -/
theorem unresolved_input_fails_at_solve_time_witness :
    buildModel (Model.new regTiny) = Except.ok (builtResult regTiny) ∧
    ("Current function [A]", ParamValue.inputPlaceholder) ∈ simDrive.parameter_values ∧
    (List.lookup "Current function [A]" ([] : List (String × Int)) = none) ∧
    (isInputError (solve ⟨builtResult regTiny, simDrive.parameter_values,
        simDrive.data_times, none, none⟩ none []) = true ∧
     solve ⟨builtResult regTiny, simDrive.parameter_values,
        simDrive.data_times, none, none⟩ none []
       = Except.error (SolveError.inputMissing
           ((firstMissingInput simDrive.parameter_values []).getD "Current function [A]"))) :=
  ⟨rfl, by simp [simDrive], rfl,
    unresolved_input_fails_at_solve_time regTiny (builtResult regTiny)
      simDrive.parameter_values simDrive.data_times none none none []
      "Current function [A]" rfl (by simp [simDrive]) rfl⟩

/-- C6: when the simulation's time domain comes from imported drive-cycle
data, a solve with no explicit time argument falls back to the imported data
time axis: the returned solution is sampled exactly at the imported series
time points. -/
theorem solve_defaults_to_drive_cycle_times
    (sim : Simulation) (inputs : List (String × Int)) (ds : List Int)
    (hb : sim.model.built = true)
    (hc : placeholdersCovered sim.parameter_values inputs = true)
    (hd : sim.data_times = some ds) :
    solveTimes (solve sim none inputs) = some ds := by
  obtain ⟨resolved, hres, hsolve⟩ := solve_ok_ex sim none inputs hb hc
  rw [hsolve]
  simp [solveTimes, hd]

/-- Witness for C6 at the drive-cycle simulation. -/
theorem solve_defaults_to_drive_cycle_times_witness :
    simDrive.model.built = true ∧
    placeholdersCovered simDrive.parameter_values [("Current function [A]", 2)] = true ∧
    simDrive.data_times = some [0, 300, 600] ∧
    solveTimes (solve simDrive none [("Current function [A]", 2)])
      = some [0, 300, 600] :=
  ⟨rfl, rfl, rfl,
    solve_defaults_to_drive_cycle_times simDrive [("Current function [A]", 2)]
      [0, 300, 600] rfl rfl rfl⟩

/-- C7: a trial step whose evaluation time falls outside the supplied time
grid is a non-fatal event: the controller logs a warning, rejects the trial
step and retries a strictly shorter step that is valid (stays inside the
grid), and the stepping loop always completes with a successful result
instead of raising the fatal out-of-range error. -/
theorem out_of_range_step_rejected_and_retried
    (tmax t hTrial t0 : Int) (hs : List Int)
    (h1 : t ≤ tmax) (h2 : tmax < t + hTrial) (h3 : t0 ≤ tmax) :
    (controlStep tmax t hTrial).warned = true ∧
    (controlStep tmax t hTrial).rejected = true ∧
    (controlStep tmax t hTrial).stepSize < hTrial ∧
    t + (controlStep tmax t hTrial).stepSize ≤ tmax ∧
    exceptOk (runSteps tmax hs t0) = true := by
  refine ⟨?_, ?_, ?_, ?_, runSteps_ok tmax hs t0 h3⟩
  · rw [controlStep, if_pos h2]
  · rw [controlStep, if_pos h2]
  · rw [controlStep, if_pos h2]
    show tmax - t < hTrial
    omega
  · rw [controlStep, if_pos h2]
    show t + (tmax - t) ≤ tmax
    omega

/-- Witness for C7: a first trial step of size 100 against a data range
ending at 10. -/
theorem out_of_range_step_rejected_and_retried_witness :
    (0 : Int) ≤ 10 ∧ (10 : Int) < 0 + 100 ∧
    ((controlStep 10 0 100).warned = true ∧
     (controlStep 10 0 100).rejected = true ∧
     (controlStep 10 0 100).stepSize < 100 ∧
     (0 : Int) + (controlStep 10 0 100).stepSize ≤ 10 ∧
     exceptOk (runSteps 10 [100, 4, 4] 0) = true) :=
  ⟨by norm_num, by norm_num,
    out_of_range_step_rejected_and_retried 10 0 100 0 [100, 4, 4]
      (by norm_num) (by norm_num) (by norm_num)⟩

/-- C8: a second solve with different input values needs no rebuild and no
rediscretisation — the model (hence the built equation system), the parameter
values, the drive-cycle data and the cached discretisation all pass through
both solves unchanged; only the solution object of the resulting simulation
differs. -/
theorem resolve_preserves_model_and_parameters
    (sim sim1 : Simulation) (t1 t2 : Option (List Int))
    (i1 i2 : List (String × Int))
    (h1 : solve sim t1 i1 = Except.ok sim1)
    (h2 : placeholdersCovered sim1.parameter_values i2 = true) :
    sim1.model = sim.model ∧ sim1.parameter_values = sim.parameter_values ∧
    sim1.data_times = sim.data_times ∧
    exceptOk (solve sim1 t2 i2) = true ∧
    (solveResult sim1 t2 i2).model = sim.model ∧
    (solveResult sim1 t2 i2).parameter_values = sim.parameter_values ∧
    (solveResult sim1 t2 i2).data_times = sim.data_times ∧
    (solveResult sim1 t2 i2).disc = sim1.disc := by
  obtain ⟨hb, hmod, hpar, hdat, hdisc⟩ := solve_ok_inv sim sim1 t1 i1 h1
  have hb1 : sim1.model.built = true := by rw [hmod]; exact hb
  obtain ⟨resolved, hres, hsolve⟩ := solve_ok_ex sim1 t2 i2 hb1 h2
  cases hs2 : solve sim1 t2 i2 with
  | error e => rw [hsolve] at hs2; simp at hs2
  | ok sim2 =>
    have hsr : solveResult sim1 t2 i2 = sim2 := by simp [solveResult, hs2]
    obtain ⟨hb2, hmod2, hpar2, hdat2, hdisc2⟩ := solve_ok_inv sim1 sim2 t2 i2 hs2
    refine ⟨hmod, hpar, hdat, rfl, ?_, ?_, ?_, ?_⟩
    · rw [hsr, hmod2, hmod]
    · rw [hsr, hpar2, hpar]
    · rw [hsr, hdat2, hdat]
    · rw [hsr, hdisc2, hdisc]
      rfl

/-- Witness for C8: two successive solves of the drive-cycle simulation with
different input currents. -/
theorem resolve_preserves_model_and_parameters_witness :
    solve simDrive none [("Current function [A]", 2)]
      = Except.ok (solveResult simDrive none [("Current function [A]", 2)]) ∧
    placeholdersCovered
      (solveResult simDrive none [("Current function [A]", 2)]).parameter_values
      [("Current function [A]", 5)] = true ∧
    ((solveResult simDrive none [("Current function [A]", 2)]).model = simDrive.model ∧
     (solveResult simDrive none [("Current function [A]", 2)]).parameter_values
       = simDrive.parameter_values ∧
     (solveResult simDrive none [("Current function [A]", 2)]).data_times
       = simDrive.data_times ∧
     exceptOk (solve (solveResult simDrive none [("Current function [A]", 2)])
       (some [0, 10]) [("Current function [A]", 5)]) = true ∧
     (solveResult (solveResult simDrive none [("Current function [A]", 2)])
       (some [0, 10]) [("Current function [A]", 5)]).model = simDrive.model ∧
     (solveResult (solveResult simDrive none [("Current function [A]", 2)])
       (some [0, 10]) [("Current function [A]", 5)]).parameter_values
       = simDrive.parameter_values ∧
     (solveResult (solveResult simDrive none [("Current function [A]", 2)])
       (some [0, 10]) [("Current function [A]", 5)]).data_times
       = simDrive.data_times ∧
     (solveResult (solveResult simDrive none [("Current function [A]", 2)])
       (some [0, 10]) [("Current function [A]", 5)]).disc
       = (solveResult simDrive none [("Current function [A]", 2)]).disc) :=
  ⟨rfl, rfl,
    resolve_preserves_model_and_parameters simDrive
      (solveResult simDrive none [("Current function [A]", 2)])
      none (some [0, 10]) [("Current function [A]", 2)] [("Current function [A]", 5)]
      rfl rfl⟩

/-- C9: before build, inserting a submodel under a name that already has an
entry overwrites the earlier entry (the new submodel is found under the key,
other keys are untouched, and key uniqueness is preserved, so no two
submodels ever hold the same registry key simultaneously); replacing an entry
of a model whose registry an already-completed build has consumed fails with
the `InvalidStateError`. -/
theorem registry_insert_overwrites_frozen_after_build
    (r : Registry) (k k2 : SubName) (s : Submodel) (m mb : Model)
    (hnod : (r.map Prod.fst).Nodup) (hk2 : k2 ≠ k)
    (hm : m.built = false) (hmb : mb.built = true) :
    (insertSub r k s).lookup k = some s ∧
    (insertSub r k s).lookup k2 = r.lookup k2 ∧
    ((insertSub r k s).map Prod.fst).Nodup ∧
    setSubmodel m k s = Except.ok { m with submodels := insertSub m.submodels k s } ∧
    setSubmodel mb k s = Except.error StateError.invalidState :=
  ⟨insertSub_lookup_self r k s, insertSub_lookup_ne r k k2 s hk2,
   insertSub_keys_nodup r k s hnod,
   by simp [setSubmodel, hm],
   by simp [setSubmodel, hmb]⟩

/-- Witness for C9: replacing the negative primary particle submodel of the
unbuilt SPM, and attempting the same replacement on the built SPM. -/
theorem registry_insert_overwrites_frozen_after_build_witness :
    ((SPM false).submodels.map Prod.fst).Nodup ∧
    "thermal" ≠ "negative primary particle" ∧
    (SPM false).built = false ∧ (SPM true).built = true ∧
    ((insertSub (SPM false).submodels "negative primary particle"
        (simpleSub ["uniform profile"])).lookup "negative primary particle"
      = some (simpleSub ["uniform profile"]) ∧
     (insertSub (SPM false).submodels "negative primary particle"
        (simpleSub ["uniform profile"])).lookup "thermal"
      = (SPM false).submodels.lookup "thermal" ∧
     ((insertSub (SPM false).submodels "negative primary particle"
        (simpleSub ["uniform profile"])).map Prod.fst).Nodup ∧
     setSubmodel (SPM false) "negative primary particle" (simpleSub ["uniform profile"])
      = Except.ok { SPM false with
          submodels := insertSub (SPM false).submodels "negative primary particle"
            (simpleSub ["uniform profile"]) } ∧
     setSubmodel (SPM true) "negative primary particle" (simpleSub ["uniform profile"])
      = Except.error StateError.invalidState) :=
  ⟨by decide, by decide, rfl, rfl,
    registry_insert_overwrites_frozen_after_build (SPM false).submodels
      "negative primary particle" "thermal" (simpleSub ["uniform profile"])
      (SPM false) (SPM true) (by decide) (by decide) rfl rfl⟩

/-- C10: the pre-configured SPM constructed with default arguments is already
built (its rhs is populated); constructed with `build := false` its submodel
registry is fully populated but its equation system is empty; and the base
lithium-ion model selects no default submodels. -/
theorem preconfigured_model_constructors :
    (SPM true).built = true ∧ (SPM true).eqs.rhs ≠ [] ∧
    (SPM false).built = false ∧ (SPM false).submodels = spmSubmodels ∧
    spmSubmodels ≠ [] ∧ (SPM false).eqs = EqnSystem.empty ∧
    BaseModel.submodels = [] ∧ BaseModel.built = false := by
  refine ⟨rfl, by decide, rfl, rfl, by decide, rfl, rfl, rfl⟩

end Claims

end PyBaMM

